import Mathlib

/-!
Verification of the pbrt4 scene-entity constructors (`src/types.rs`).

Rust `f32` values are embedded as exact rationals (`ℚ`): the constructors
perform no floating-point arithmetic beyond negation of a parameter value
(`-radius`), which is exact in IEEE 754, so the embedding is faithful on
every input considered here. Rust `i32` is embedded as `Int` (no arithmetic
is performed on integer parameters). Fixed-size arrays (`[f32; 4]`,
`[f32; 3]`) are embedded as lists whose length is checked at the same
program points where Rust's `try_into` checks it.
-/

namespace Pbrt4

/-- Modelled from the spec: the error taxonomy (the crate-root `Error` enum is
not among the sources; `types.rs` only names its variants). One variant per
error construction site used by `types.rs`. -/
inductive Error where
  | UnknownCoordinateSystem
  | ParseSlice
  | InvalidCameraType
  | InvalidString
  | InvalidObjectType
  deriving DecidableEq, Repr

/-- Outcome of one constructor call: Rust's `Result` (`ok`/`err`) extended
with an explicit `crash` value marking a non-returning abort — the
`unimplemented!` macro invocations and a failed `debug_assert` in
`types.rs`. -/
inductive Outcome (α : Type) where
  | ok (a : α)
  | err (e : Error)
  | crash
  deriving DecidableEq, Repr

/-- True exactly when the outcome is a recoverable error value. -/
def Outcome.isErrOutcome {α : Type} : Outcome α → Bool
  | .err _ => true
  | _ => false

/-- Modelled from the spec: the Parameter Source (the crate's `param` module
with `ParamList` is not among the sources). Per the external-interface
contract it is a read-only, string-keyed, case-sensitive lookup returning an
optional scalar or an optional slice per kind; one name maps to at most one
value per kind. Each field is one kind's lookup. -/
structure ParamList where
  getBoolean : String → Option Bool
  getInteger : String → Option Int
  getFloat : String → Option ℚ
  getString : String → Option String
  getFloats : String → Option (List ℚ)
  getIntegers : String → Option (List Int)

/-- Modelled from the spec: accessor `float(name, default)` — the stored
float if the name is present, else the caller-supplied default. -/
def ParamList.float (p : ParamList) (name : String) (d : ℚ) : ℚ :=
  (p.getFloat name).getD d

/-- Modelled from the spec: accessor `integer(name, default)`. -/
def ParamList.integer (p : ParamList) (name : String) (d : Int) : Int :=
  (p.getInteger name).getD d

/-- Modelled from the spec: accessor `boolean(name)` — optional, no default. -/
def ParamList.boolean (p : ParamList) (name : String) : Option Bool :=
  p.getBoolean name

/-- Modelled from the spec: accessor `string(name)` — optional, no default. -/
def ParamList.string (p : ParamList) (name : String) : Option String :=
  p.getString name

/-- Modelled from the spec: accessor `floats(name)` — optional float slice. -/
def ParamList.floats (p : ParamList) (name : String) : Option (List ℚ) :=
  p.getFloats name

/-- Modelled from the spec: accessor `integers(name)` — optional integer slice. -/
def ParamList.integers (p : ParamList) (name : String) : Option (List Int) :=
  p.getIntegers name

/-- The empty Parameter Source: every name is absent for every kind. -/
def ParamList.empty : ParamList :=
  ⟨fun _ => none, fun _ => none, fun _ => none, fun _ => none, fun _ => none,
   fun _ => none⟩

/-- Modelled from the spec: a single `Param` (also in the absent `param`
module): one named directive argument. `Options.apply` ignores its payload,
so only the name is carried. -/
structure Param where
  name : String

/-- The largest finite `f32` value, `f32::MAX` = (2 − 2^-23)·2^127, as an
exact rational. -/
def f32Max : ℚ := 2 ^ 128 - 2 ^ 104

/-- `CoordinateSystem` from `types.rs`. -/
inductive CoordinateSystem where
  | CameraWorld
  | Camera
  | World
  deriving DecidableEq, Repr

/-- `impl FromStr for CoordinateSystem` from `types.rs`: the three declared
tokens map to their variants, anything else is `UnknownCoordinateSystem`. -/
def CoordinateSystem.fromStr (s : String) : Outcome CoordinateSystem :=
  if s = "cameraworld" then .ok .CameraWorld
  else if s = "camera" then .ok .Camera
  else if s = "world" then .ok .World
  else .err .UnknownCoordinateSystem

/-- `Options` from `types.rs`. -/
structure Options where
  disable_pixel_jitter : Bool
  disable_texture_filtering : Bool
  disable_wavelength_jitter : Bool
  displacement_edge_scale : ℚ
  mse_reference_image : Option String
  mse_reference_out : Option String
  render_coord_sys : CoordinateSystem
  deriving DecidableEq, Repr

/-- `impl Default for Options` from `types.rs`. -/
def Options.defaultValue : Options :=
  ⟨false, false, false, 1, none, none, .CameraWorld⟩

/-- `Options::apply` from `types.rs`: `&mut self` state-passing style — the
returned `Options` is the post-state; the body is `Ok(())`, touching
nothing. -/
def Options.apply (o : Options) (_option : Param) : Outcome Options :=
  .ok o

/-- `FilmType` from `types.rs`. -/
inductive FilmType where
  | Rgb
  | GBuffer (coordinate_system : String)
  | Spectral (nbuckets : Int) (lambda_min lambda_max : ℚ)
  deriving DecidableEq, Repr

/-- `Film` from `types.rs`. -/
structure Film where
  xresolution : Int
  yresolution : Int
  crop_window : List ℚ
  diagonal : ℚ
  filename : String
  save_fp16 : Bool
  iso : ℚ
  white_balance : ℚ
  sensor : String
  max_component_value : ℚ
  ty : FilmType
  deriving DecidableEq, Repr

/-- The common-field part of `Film::new` (the `Film { .. }` struct literal
after the type-tag dispatch): `cropwindow` defaults to `[0,1,0,1]` and, when
present, must have exactly 4 entries (`try_into`, else `Error::ParseSlice`). -/
def Film.build (t : FilmType) (params : ParamList) : Outcome Film :=
  let cw := (params.floats "cropwindow").getD [0, 1, 0, 1]
  if cw.length = 4 then
    .ok { xresolution := params.integer "xresolution" 1280,
          yresolution := params.integer "yresolution" 720,
          crop_window := cw,
          diagonal := params.float "diagonal" 35,
          filename := (params.string "filename").getD "pbrt.exr",
          save_fp16 := (params.boolean "savefp16").getD true,
          iso := params.float "iso" 100,
          white_balance := params.float "whitebalance" 0,
          sensor := (params.string "sensor").getD "cie1931",
          max_component_value := params.float "maxcomponentvalue" f32Max,
          ty := t }
  else .err .ParseSlice

/-- `Film::new` from `types.rs`: tags `rgb`, `gbuffer`, `spectral`; any other
tag hits `unimplemented!` (a panic), embedded as `crash`. -/
def Film.new (ty : String) (params : ParamList) : Outcome Film :=
  if ty = "rgb" then Film.build .Rgb params
  else if ty = "gbuffer" then
    Film.build (.GBuffer ((params.string "coordinatesystem").getD "camera")) params
  else if ty = "spectral" then
    Film.build (.Spectral (params.integer "nbuckets" 16)
      (params.float "lambdamin" 360) (params.float "lambdamax" 830)) params
  else .crash

/-- The crop window of a successful film construction, `none` otherwise. -/
def Film.cropOf : Outcome Film → Option (List ℚ)
  | .ok f => some f.crop_window
  | _ => none

/-- `Camera` from `types.rs`. -/
inductive Camera where
  | Orthographic (shutter_open shutter_close : ℚ)
  | Perspective (shutter_open shutter_close fov : ℚ)
  | Realistic (shutter_open shutter_close : ℚ) (lensfile : Option String)
      (aperture_diameter focus_distance : ℚ) (aperture : Option String)
  | Spherical (shutter_open shutter_close : ℚ) (mapping : String)
  deriving DecidableEq, Repr

/-- `Camera::new` from `types.rs`: shutter times are read before dispatch;
unknown tags return `Error::InvalidCameraType`. The spherical mapping
defaults to the literal `"equalarea"`. -/
def Camera.new (ty : String) (params : ParamList) : Outcome Camera :=
  let shutter_open := params.float "shutteropen" 0
  let shutter_close := params.float "shutterclose" 1
  if ty = "orthographic" then .ok (.Orthographic shutter_open shutter_close)
  else if ty = "perspective" then
    .ok (.Perspective shutter_open shutter_close (params.float "fov" 90))
  else if ty = "realistic" then
    .ok (.Realistic shutter_open shutter_close (params.string "lensfile")
      (params.float "aperturediameter" 1) (params.float "focusdistance" 10)
      (params.string "aperture"))
  else if ty = "spherical" then
    .ok (.Spherical shutter_open shutter_close
      ((params.string "mapping").getD "equalarea"))
  else .err .InvalidCameraType

/-- `Integrator` from `types.rs`. -/
inductive Integrator where
  | AmbientOcclusion
  | Bdpt
  | LightPath
  | Mlt
  | Path
  | RandomWalk
  | SimplePath
  | SimpleVolPath
  | Sppm
  | VolPath (max_depth : Int)
  deriving DecidableEq, Repr

/-- `Integrator::new` from `types.rs`: only `volpath` is wired; every other
tag hits `unimplemented!`. -/
def Integrator.new (ty : String) (params : ParamList) : Outcome Integrator :=
  if ty = "volpath" then .ok (.VolPath (params.integer "maxdepth" 5))
  else .crash

/-- `BvhSplitMethod` from `types.rs`. -/
inductive BvhSplitMethod where
  | Sah
  | Middle
  | Equal
  | Hlbvh
  deriving DecidableEq, Repr

/-- The inner `splitmethod` string match of `Accelerator::new`. -/
def BvhSplitMethod.fromStr (s : String) : Outcome BvhSplitMethod :=
  if s = "sah" then .ok .Sah
  else if s = "middle" then .ok .Middle
  else if s = "equal" then .ok .Equal
  else if s = "hlbvh" then .ok .Hlbvh
  else .err .InvalidString

/-- `Accelerator` from `types.rs`. -/
inductive Accelerator where
  | Bvh (max_node_prims : Int) (split_method : BvhSplitMethod)
  | KdTree (intersect_cost traversal_cost : Int) (empty_bonus : ℚ)
      (max_prims max_depth : Int)
  deriving DecidableEq, Repr

/-- `Accelerator::new` from `types.rs`: tags `bvh` and `kdtree`; an invalid
split-method string or an unknown tag returns `Error::InvalidString`. -/
def Accelerator.new (ty : String) (params : ParamList) : Outcome Accelerator :=
  if ty = "bvh" then
    match BvhSplitMethod.fromStr ((params.string "splitmethod").getD "sah") with
    | .ok sm => .ok (.Bvh (params.integer "maxnodeprims" 4) sm)
    | .err e => .err e
    | .crash => .crash
  else if ty = "kdtree" then
    .ok (.KdTree (params.integer "intersectcost" 5)
      (params.integer "traversalcost" 1) (params.float "emptybonus" 0.5)
      (params.integer "maxprims" 1) (params.integer "maxdepth" (-1)))
  else .err .InvalidString

/-- `Sampler` from `types.rs`. -/
inductive Sampler where
  | Halton
  | Independent
  | PaddedSobol
  | Sobol
  | Stratified
  | ZSobol
  deriving DecidableEq, Repr

/-- `Sampler::new` from `types.rs`: dispatch on the tag only; the parameter
list argument is declared `_params` and never read. Unknown tags return
`Error::InvalidObjectType`. -/
def Sampler.new (ty : String) (_params : ParamList) : Outcome Sampler :=
  if ty = "halton" then .ok .Halton
  else if ty = "independent" then .ok .Independent
  else if ty = "paddedsobol" then .ok .PaddedSobol
  else if ty = "sobol" then .ok .Sobol
  else if ty = "stratified" then .ok .Stratified
  else if ty = "zsobol" then .ok .ZSobol
  else .err .InvalidObjectType

/-- `Light` from `types.rs`; the `Infinite` radiance `l : Option<[f32; 3]>`
is embedded as an optional list whose length-3 check sits at the same point
as Rust's `try_into`. -/
inductive Light where
  | Distant
  | GonioPhotometric
  | Infinite (filename : Option String) (l : Option (List ℚ))
  | Point
  | Projection
  | Spot
  deriving DecidableEq, Repr

/-- `Light::new` from `types.rs`: six declared tags; `infinite` carries the
optional filename and the arity-checked optional `L` spectrum
(`Error::ParseSlice` when a present `L` is not 3 floats); any other tag hits
`unimplemented!`. -/
def Light.new (ty : String) (params : ParamList) : Outcome Light :=
  if ty = "distant" then .ok .Distant
  else if ty = "goniometric" then .ok .GonioPhotometric
  else if ty = "infinite" then
    match params.floats "L" with
    | some f =>
        if f.length = 3 then .ok (.Infinite (params.string "filename") (some f))
        else .err .ParseSlice
    | none => .ok (.Infinite (params.string "filename") none)
  else if ty = "point" then .ok .Point
  else if ty = "projection" then .ok .Projection
  else if ty = "spot" then .ok .Spot
  else .crash

/-- `TextureType` from `types.rs`. -/
inductive TextureType where
  | Float
  | Spectrum
  deriving DecidableEq, Repr

/-- `Texture` from `types.rs`. -/
structure Texture where
  name : String
  ty : TextureType
  cls : String
  deriving DecidableEq, Repr

/-- `Texture::new` from `types.rs`: tags `spectrum` and `float`; unknown tags
return `Error::InvalidObjectType`; parameters are accepted but unparsed. -/
def Texture.new (name ty cls : String) (_params : ParamList) : Outcome Texture :=
  if ty = "spectrum" then .ok ⟨name, .Spectrum, cls⟩
  else if ty = "float" then .ok ⟨name, .Float, cls⟩
  else .err .InvalidObjectType

/-- `Shape` from `types.rs`. -/
inductive Shape where
  | Cylinder (alpha radius zmin zmax phimax : ℚ)
  | Disk (alpha height radius innerradius phimax : ℚ)
  | Sphere (alpha radius zmin zmax phimax : ℚ)
  | TriangleMesh (alpha : ℚ) (indices : List Int)
      (positions normals tangents uvs : List ℚ)
  deriving DecidableEq, Repr

/-- `Shape::new` from `types.rs`: the shared `alpha` is read first; the
sphere z-range defaults are derived from the (possibly overridden) radius;
`trianglemesh` takes its four float arrays and the index array each
defaulting to empty, with `debug_assert_eq!(indices.len() % 3, 0)` embedded
as a `crash` branch (assertion-enabled build semantics); any other tag hits
`unimplemented!`. -/
def Shape.new (ty : String) (params : ParamList) : Outcome Shape :=
  let alpha := params.float "alpha" 1
  if ty = "cylinder" then
    .ok (.Cylinder alpha (params.float "radius" 1) (params.float "zmin" (-1))
      (params.float "zmax" 1) (params.float "phimax" 360))
  else if ty = "disk" then
    .ok (.Disk alpha (params.float "height" 0) (params.float "radius" 1)
      (params.float "innerradius" 0) (params.float "phimax" 360))
  else if ty = "sphere" then
    let radius := params.float "radius" 1
    .ok (.Sphere alpha radius (params.float "zmin" (-radius))
      (params.float "zmax" radius) (params.float "phimax" 360))
  else if ty = "trianglemesh" then
    let indices := (params.integers "indices").getD []
    if indices.length % 3 = 0 then
      .ok (.TriangleMesh alpha indices ((params.floats "P").getD [])
        ((params.floats "N").getD []) ((params.floats "S").getD [])
        ((params.floats "uv").getD []))
    else .crash
  else .crash

/-- `Medium` from `types.rs`: a no-field placeholder whose constructor always
succeeds. -/
structure Medium where
  deriving DecidableEq, Repr

/-- `Medium::new` from `types.rs`. -/
def Medium.new (_params : ParamList) : Outcome Medium :=
  .ok ⟨⟩

/-- A Parameter Source carrying exactly one float entry. -/
def oneFloat (n : String) (v : ℚ) : ParamList :=
  { ParamList.empty with getFloat := fun k => if k = n then some v else none }

/-- A Parameter Source carrying exactly two float entries. -/
def twoFloats (n₁ : String) (v₁ : ℚ) (n₂ : String) (v₂ : ℚ) : ParamList :=
  { ParamList.empty with
    getFloat := fun k =>
      if k = n₁ then some v₁ else if k = n₂ then some v₂ else none }

/-- A Parameter Source carrying exactly one float-array entry. -/
def oneFloatArr (n : String) (l : List ℚ) : ParamList :=
  { ParamList.empty with getFloats := fun k => if k = n then some l else none }

/-- C5: `Film::new` with tag `"rgb"` and an empty Parameter Source succeeds
with exactly the documented defaults: 1280×720, crop window `[0,1,0,1]`,
diagonal 35.0, filename `"pbrt.exr"`, half-float saving on, ISO 100.0,
white balance 0.0, sensor `"cie1931"`, max component value `f32::MAX`, and
film type `Rgb`. -/
theorem C5_film_rgb_defaults :
    Film.new "rgb" ParamList.empty =
      .ok { xresolution := 1280, yresolution := 720,
            crop_window := [0, 1, 0, 1], diagonal := 35,
            filename := "pbrt.exr", save_fp16 := true, iso := 100,
            white_balance := 0, sensor := "cie1931",
            max_component_value := f32Max, ty := .Rgb } := by
  rfl

/-- C7: `Options::apply` always returns `Ok` and leaves the `Options` state
(every one of its seven fields) unchanged, for every starting state and
every option parameter. -/
theorem C7_options_apply_noop (o : Options) (p : Param) :
    Options.apply o p = .ok o :=
  rfl

/-- C8: `Sampler::new` never reads the Parameter Source: for every tag, any
two Parameter Sources produce the same result. -/
theorem C8_sampler_ignores_params (ty : String) (p₁ p₂ : ParamList) :
    Sampler.new ty p₁ = Sampler.new ty p₂ :=
  rfl

/-- C9: coordinate-system parsing maps `"cameraworld"`, `"camera"` and
`"world"` to their variants and sends every other string to
`Error::UnknownCoordinateSystem`. -/
theorem C9_coordinate_system_round_trip :
    CoordinateSystem.fromStr "cameraworld" = .ok .CameraWorld ∧
    CoordinateSystem.fromStr "camera" = .ok .Camera ∧
    CoordinateSystem.fromStr "world" = .ok .World ∧
    (∀ s : String, s ≠ "cameraworld" → s ≠ "camera" → s ≠ "world" →
      CoordinateSystem.fromStr s = .err .UnknownCoordinateSystem) := by
  refine ⟨rfl, rfl, rfl, ?_⟩
  intro s h₁ h₂ h₃
  simp [CoordinateSystem.fromStr, h₁, h₂, h₃]

/-- Witness for C9 at the concrete strings `"foo"` and `""`. -/
theorem C9_witness :
    CoordinateSystem.fromStr "foo" = .err .UnknownCoordinateSystem ∧
    CoordinateSystem.fromStr "" = .err .UnknownCoordinateSystem :=
  ⟨C9_coordinate_system_round_trip.2.2.2 "foo" (by decide) (by decide)
      (by decide),
   C9_coordinate_system_round_trip.2.2.2 "" (by decide) (by decide)
      (by decide)⟩

/-- C10: `Shape::new` with tag `"trianglemesh"` and a Parameter Source in
which `indices`, `P`, `N`, `S` and `uv` are all absent returns `Ok` with all
five arrays empty — absence of the mesh arrays is never a returned error. -/
theorem C10_trianglemesh_all_absent (params : ParamList)
    (hI : params.integers "indices" = none) (hP : params.floats "P" = none)
    (hN : params.floats "N" = none) (hS : params.floats "S" = none)
    (hU : params.floats "uv" = none) :
    Shape.new "trianglemesh" params =
      .ok (.TriangleMesh (params.float "alpha" 1) [] [] [] [] []) := by
  simp [Shape.new, hI, hP, hN, hS, hU]

/-- Witness for C10 at the empty Parameter Source. -/
theorem C10_witness :
    Shape.new "trianglemesh" ParamList.empty =
      .ok (.TriangleMesh 1 [] [] [] [] []) :=
  C10_trianglemesh_all_absent ParamList.empty rfl rfl rfl rfl rfl

/-- C1 counterexample: at the unknown tag `"foo"`, `Film::new` does not
return an error value at all — it aborts (`unimplemented!`), embedded as
`crash` — refuting the claim that every family returns an
UnrecognizedTypeTag-class error with no exceptions. -/
theorem C1_counterexample :
    Film.new "foo" ParamList.empty = Outcome.crash ∧
    (Film.new "foo" ParamList.empty).isErrOutcome = false := by
  exact ⟨rfl, rfl⟩

/-- C1 (amended): on a tag outside the handled set, `Camera::new`,
`Accelerator::new`, `Sampler::new` and `Texture::new` return their family's
unrecognized-type-tag error, while `Film::new`, `Integrator::new`,
`Light::new` and `Shape::new` abort via `unimplemented!` instead of
returning an error. -/
theorem C1_unknown_tag_by_family :
    (∀ ty params, ty ≠ "orthographic" → ty ≠ "perspective" →
      ty ≠ "realistic" → ty ≠ "spherical" →
      Camera.new ty params = .err .InvalidCameraType) ∧
    (∀ ty params, ty ≠ "bvh" → ty ≠ "kdtree" →
      Accelerator.new ty params = .err .InvalidString) ∧
    (∀ ty params, ty ≠ "halton" → ty ≠ "independent" → ty ≠ "paddedsobol" →
      ty ≠ "sobol" → ty ≠ "stratified" → ty ≠ "zsobol" →
      Sampler.new ty params = .err .InvalidObjectType) ∧
    (∀ name ty cls params, ty ≠ "spectrum" → ty ≠ "float" →
      Texture.new name ty cls params = .err .InvalidObjectType) ∧
    (∀ ty params, ty ≠ "rgb" → ty ≠ "gbuffer" → ty ≠ "spectral" →
      Film.new ty params = .crash) ∧
    (∀ ty params, ty ≠ "volpath" → Integrator.new ty params = .crash) ∧
    (∀ ty params, ty ≠ "distant" → ty ≠ "goniometric" → ty ≠ "infinite" →
      ty ≠ "point" → ty ≠ "projection" → ty ≠ "spot" →
      Light.new ty params = .crash) ∧
    (∀ ty params, ty ≠ "cylinder" → ty ≠ "disk" → ty ≠ "sphere" →
      ty ≠ "trianglemesh" → Shape.new ty params = .crash) := by
  refine ⟨?_, ?_, ?_, ?_, ?_, ?_, ?_, ?_⟩
  · intro ty params h₁ h₂ h₃ h₄
    simp [Camera.new, h₁, h₂, h₃, h₄]
  · intro ty params h₁ h₂
    simp [Accelerator.new, h₁, h₂]
  · intro ty params h₁ h₂ h₃ h₄ h₅ h₆
    simp [Sampler.new, h₁, h₂, h₃, h₄, h₅, h₆]
  · intro name ty cls params h₁ h₂
    simp [Texture.new, h₁, h₂]
  · intro ty params h₁ h₂ h₃
    simp [Film.new, h₁, h₂, h₃]
  · intro ty params h₁
    simp [Integrator.new, h₁]
  · intro ty params h₁ h₂ h₃ h₄ h₅ h₆
    simp [Light.new, h₁, h₂, h₃, h₄, h₅, h₆]
  · intro ty params h₁ h₂ h₃ h₄
    simp [Shape.new, h₁, h₂, h₃, h₄]

/-- Witness for C1 (amended) at the concrete unknown tag `"foo"`: one
instance from an error-returning family and one from each aborting family. -/
theorem C1_witness :
    Camera.new "foo" ParamList.empty = .err .InvalidCameraType ∧
    Accelerator.new "foo" ParamList.empty = .err .InvalidString ∧
    Sampler.new "foo" ParamList.empty = .err .InvalidObjectType ∧
    Texture.new "t" "foo" "c" ParamList.empty = .err .InvalidObjectType ∧
    Film.new "bar" ParamList.empty = .crash ∧
    Integrator.new "foo" ParamList.empty = .crash ∧
    Light.new "foo" ParamList.empty = .crash ∧
    Shape.new "foo" ParamList.empty = .crash :=
  ⟨C1_unknown_tag_by_family.1 "foo" ParamList.empty (by decide) (by decide)
      (by decide) (by decide),
   C1_unknown_tag_by_family.2.1 "foo" ParamList.empty (by decide) (by decide),
   C1_unknown_tag_by_family.2.2.1 "foo" ParamList.empty (by decide)
      (by decide) (by decide) (by decide) (by decide) (by decide),
   C1_unknown_tag_by_family.2.2.2.1 "t" "foo" "c" ParamList.empty (by decide)
      (by decide),
   C1_unknown_tag_by_family.2.2.2.2.1 "bar" ParamList.empty (by decide)
      (by decide) (by decide),
   C1_unknown_tag_by_family.2.2.2.2.2.1 "foo" ParamList.empty (by decide),
   C1_unknown_tag_by_family.2.2.2.2.2.2.1 "foo" ParamList.empty (by decide)
      (by decide) (by decide) (by decide) (by decide) (by decide),
   C1_unknown_tag_by_family.2.2.2.2.2.2.2 "foo" ParamList.empty (by decide)
      (by decide) (by decide) (by decide)⟩

/-- C2 counterexample: with `"mapping"` absent, the spherical camera's
mapping field is the source literal `"equalarea"`, which is not the string
`"equal-area"` the claim states. -/
theorem C2_counterexample :
    Camera.new "spherical" ParamList.empty = .ok (.Spherical 0 1 "equalarea") ∧
    ("equalarea" : String) ≠ "equal-area" := by
  exact ⟨rfl, by decide⟩

/-- C2 (amended): for `Camera::new` with tag `"spherical"` and a Parameter
Source in which `"mapping"` is absent, the constructed camera's mapping
field is the default string `"equalarea"`. -/
theorem C2_spherical_default_mapping (params : ParamList)
    (h : params.string "mapping" = none) :
    Camera.new "spherical" params =
      .ok (.Spherical (params.float "shutteropen" 0)
        (params.float "shutterclose" 1) "equalarea") := by
  simp [Camera.new, h]

/-- Witness for C2 (amended) at the empty Parameter Source. -/
theorem C2_witness :
    Camera.new "spherical" ParamList.empty = .ok (.Spherical 0 1 "equalarea") :=
  C2_spherical_default_mapping ParamList.empty rfl

/-- C3: `Shape::new` with tag `"sphere"` and radius 2.0 derives each absent
clipping plane from the radius independently: with both absent the z-range is
[−2, 2]; with `zmin = −0.5` given and `zmax` absent it is [−0.5, 2]. -/
theorem C3_sphere_derived_defaults :
    (∀ params : ParamList, params.getFloat "radius" = some 2 →
      params.getFloat "zmin" = none → params.getFloat "zmax" = none →
      Shape.new "sphere" params =
        .ok (.Sphere (params.float "alpha" 1) 2 (-2) 2
          (params.float "phimax" 360))) ∧
    (∀ params : ParamList, params.getFloat "radius" = some 2 →
      params.getFloat "zmin" = some (-0.5) → params.getFloat "zmax" = none →
      Shape.new "sphere" params =
        .ok (.Sphere (params.float "alpha" 1) 2 (-0.5) 2
          (params.float "phimax" 360))) := by
  constructor
  · intro params hr hzmin hzmax
    simp [Shape.new, ParamList.float, hr, hzmin, hzmax]
  · intro params hr hzmin hzmax
    simp [Shape.new, ParamList.float, hr, hzmin, hzmax]

/-- Witness for C3 at two concrete Parameter Sources: radius only, and
radius plus an explicit zmin. -/
theorem C3_witness :
    Shape.new "sphere" (oneFloat "radius" 2) =
      .ok (.Sphere 1 2 (-2) 2 360) ∧
    Shape.new "sphere" (twoFloats "radius" 2 "zmin" (-0.5)) =
      .ok (.Sphere 1 2 (-0.5) 2 360) :=
  ⟨C3_sphere_derived_defaults.1 (oneFloat "radius" 2) rfl rfl rfl,
   C3_sphere_derived_defaults.2 (twoFloats "radius" 2 "zmin" (-0.5)) rfl rfl
      rfl⟩

/-- Crop-window arity for `Film.build`, shared by every valid film tag. -/
theorem Film.build_cropwindow (t : FilmType) (params : ParamList)
    (l : List ℚ) (hl : params.floats "cropwindow" = some l) :
    (l.length ≠ 4 → Film.build t params = .err .ParseSlice) ∧
    (l.length = 4 → Film.cropOf (Film.build t params) = some l) := by
  constructor
  · intro h₄
    simp [Film.build, hl, h₄]
  · intro h₄
    simp [Film.build, hl, h₄, Film.cropOf]

/-- C4: for every valid film tag, a present `"cropwindow"` of length ≠ 4
(so in particular 3 or 5) makes `Film::new` return the fixed-arity error
`Error::ParseSlice`, never a truncated or padded window; a present window of
exactly 4 floats succeeds and is stored verbatim. -/
theorem C4_cropwindow_arity (ty : String)
    (hty : ty = "rgb" ∨ ty = "gbuffer" ∨ ty = "spectral")
    (params : ParamList) (l : List ℚ)
    (hl : params.floats "cropwindow" = some l) :
    (l.length ≠ 4 → Film.new ty params = .err .ParseSlice) ∧
    (l.length = 4 → Film.cropOf (Film.new ty params) = some l) := by
  rcases hty with h | h | h <;> subst h <;>
    simpa [Film.new] using Film.build_cropwindow _ params l hl

/-- Witness for C4 at tag `"rgb"` with concrete crop windows of lengths 3,
5 and 4. -/
theorem C4_witness :
    Film.new "rgb" (oneFloatArr "cropwindow" [0, 1, 0]) = .err .ParseSlice ∧
    Film.new "rgb" (oneFloatArr "cropwindow" [0, 1, 0, 1, 0.5]) =
      .err .ParseSlice ∧
    Film.cropOf (Film.new "rgb" (oneFloatArr "cropwindow" [0, 0.5, 0, 0.5])) =
      some [0, 0.5, 0, 0.5] :=
  ⟨(C4_cropwindow_arity "rgb" (Or.inl rfl) (oneFloatArr "cropwindow" [0, 1, 0])
      [0, 1, 0] rfl).1 (by decide),
   (C4_cropwindow_arity "rgb" (Or.inl rfl)
      (oneFloatArr "cropwindow" [0, 1, 0, 1, 0.5]) [0, 1, 0, 1, 0.5] rfl).1
      (by decide),
   (C4_cropwindow_arity "rgb" (Or.inl rfl)
      (oneFloatArr "cropwindow" [0, 0.5, 0, 0.5]) [0, 0.5, 0, 0.5] rfl).2
      (by decide)⟩

/-- C6: `Light::new` with tag `"infinite"`: with `"filename"` and `"L"`
both absent the result is `Ok` with both payload fields `none`; with
`L = [1, 2, 3]` the radiance field is exactly that triple; a present `L` of
length 2 yields the fixed-arity error `Error::ParseSlice`. -/
theorem C6_infinite_light :
    (∀ params : ParamList, params.string "filename" = none →
      params.floats "L" = none →
      Light.new "infinite" params = .ok (.Infinite none none)) ∧
    (∀ params : ParamList, params.floats "L" = some [1, 2, 3] →
      Light.new "infinite" params =
        .ok (.Infinite (params.string "filename") (some [1, 2, 3]))) ∧
    (∀ (params : ParamList) (l : List ℚ), params.floats "L" = some l →
      l.length = 2 → Light.new "infinite" params = .err .ParseSlice) := by
  refine ⟨?_, ?_, ?_⟩
  · intro params hf hL
    simp [Light.new, hf, hL]
  · intro params hL
    simp [Light.new, hL]
  · intro params l hL h₂
    simp [Light.new, hL, h₂]

/-- Witness for C6 at three concrete Parameter Sources: empty, `L` of
length 3, and `L` of length 2. -/
theorem C6_witness :
    Light.new "infinite" ParamList.empty = .ok (.Infinite none none) ∧
    Light.new "infinite" (oneFloatArr "L" [1, 2, 3]) =
      .ok (.Infinite none (some [1, 2, 3])) ∧
    Light.new "infinite" (oneFloatArr "L" [1, 2]) = .err .ParseSlice :=
  ⟨C6_infinite_light.1 ParamList.empty rfl rfl,
   C6_infinite_light.2.1 (oneFloatArr "L" [1, 2, 3]) rfl,
   C6_infinite_light.2.2 (oneFloatArr "L" [1, 2]) [1, 2] rfl rfl⟩

end Pbrt4
